import Mathlib

/-!
Shallow embedding of the switch-triggered playback engine of
FCB1010-SoundEffectPlayer.py.

The mutable global state of the program (current_playing, queued_sounds,
volume, use_midi_volume) is modelled as one record `AppState`; the
mutating operations (`process_input`, the USEREVENT drain of
`process_pygame_events`, `set_volume`, the CC#7 branch of
`process_midi_message`, `MainWindow.slider_volume_changed`,
`process_keyboard_input`) become state transformers.

External effects are parameters of the transformers:
- the filesystem (`os.path.isdir` plus `os.listdir`) is an
  `Option (List String)` argument (`none` = folder absent, `some ls` =
  the directory listing, which the code then filters by audio extension);
- `random.choice(files)` is a `pick : String` argument;
- whether the pygame backend accepts a start request (`play_sound`
  returning real objects versus `(None, None)` after an exception) is an
  `ok : Bool` argument.

A pygame channel handle is modelled by its observable playback-relevant
state: its gain (set by `channel.set_volume`) and the pending fade
request (`channel.fadeout(500)` records `fade = some 500`).

The spec's GainState.source_mode corresponds to the `use_midi_volume`
flag: `true` is ExternalControlled (last write came from MIDI CC#7),
`false` is LocalControlled.
-/

namespace FCB1010

/-- Observable state of a pygame mixer channel handle: the gain last set
by `channel.set_volume`, and the fade request recorded by
`channel.fadeout(ms)` (`none` when no fade has been requested). -/
structure Handle where
  gain : ℚ
  fade : Option ℕ
deriving DecidableEq

/-- One value of the `current_playing` dict: the Python code stores
`(filename, channel, sound)`; the `sound` object carries no state the
engine observes, so the entry is the filename plus the channel handle. -/
structure Entry where
  filename : String
  handle : Handle
deriving DecidableEq

/-- The program's global mutable state:
`current_playing : {switch_number: (filename, channel, sound)}`,
`queued_sounds : {switch_number: filename}`, `volume`, and the
`use_midi_volume` flag. Dicts become functions to `Option`. -/
structure AppState where
  current_playing : ℕ → Option Entry
  queued_sounds : ℕ → Option String
  volume : ℚ
  use_midi_volume : Bool

/-- Dict update: `m[k] = v` (with `v = none` for `del m[k]` / `pop`). -/
def updateMap {α : Type} (m : ℕ → Option α) (k : ℕ) (v : Option α) :
    ℕ → Option α :=
  fun t => if t = k then v else m t

/-- Python `s.endswith(suffix)`. -/
def ends_with (s suffix : String) : Bool :=
  List.isSuffixOf suffix.toList s.toList

/-- The filter `f.endswith(('.wav', '.mp3', '.ogg'))` applied to each
directory entry (lines 166 and 348 of the source). -/
def is_audio (f : String) : Bool :=
  ends_with f ".wav" || ends_with f ".mp3" || ends_with f ".ogg"

/-- The candidate clips a switch resolves to: empty when the folder is
absent (`os.path.isdir` false) and otherwise the listing filtered by
audio extension. -/
def candidates (listing : Option (List String)) : List String :=
  match listing with
  | none => []
  | some ls => ls.filter is_audio

/-- `play_sound(filename, channel_num)` (source lines 95-109): on backend
success it returns a handle playing in a loop whose gain was just set to
the global `volume`; on any exception it prints and returns
`(None, None)`, modelled as `none`. -/
def play_sound (vol : ℚ) (ok : Bool) : Option Handle :=
  if ok then some { gain := vol, fade := none } else none

/-- Python builtin `min(a, b)`: the first argument when `a <= b`. -/
def pymin (a b : ℚ) : ℚ := if a ≤ b then a else b

/-- Python builtin `max(a, b)`: the first argument when `b <= a`. -/
def pymax (a b : ℚ) : ℚ := if b ≤ a then a else b

/-- `set_volume(val)` (source lines 116-122): clamps `val` to [0, 1] via
`max(0.0, min(1.0, val))`, stores it as the global `volume`, and calls
`channel.set_volume` on every entry of `current_playing`. -/
def set_volume (st : AppState) (val : ℚ) : AppState :=
  { st with
    volume := pymax 0 (pymin 1 val)
    current_playing := fun s =>
      (st.current_playing s).map
        (fun e => { e with handle := { e.handle with gain := pymax 0 (pymin 1 val) } }) }

/-- `process_input(switch_number, value)` (source lines 161-187), the
shared MIDI/keyboard switch handler. `listing` models the folder named
after the switch, `pick` models `random.choice(files)`, `ok` models
backend acceptance of the `play_sound` call. -/
def process_input (st : AppState) (switch_number : ℕ) (value : ℕ)
    (listing : Option (List String)) (pick : String) (ok : Bool) : AppState :=
  match listing with
  | none => st
  | some ls =>
    if ls.filter is_audio = [] then st
    else if 0 < value then
      match st.current_playing switch_number with
      | some _ =>
          { st with queued_sounds := updateMap st.queued_sounds switch_number (some pick) }
      | none =>
          match play_sound st.volume ok with
          | some h =>
              let started : Entry := { filename := pick, handle := h }
              { st with current_playing := updateMap st.current_playing switch_number (some started) }
          | none => st
    else
      match st.current_playing switch_number with
      | some e =>
          let faded : Entry := { e with handle := { e.handle with fade := some 500 } }
          { st with current_playing := updateMap st.current_playing switch_number (some faded) }
      | none => st

/-- The USEREVENT branch of `process_pygame_events` (source lines
199-218) after the scan has identified `s` as the finished switch (the
code walks `current_playing` for a channel whose `get_busy()` is false;
we parameterise on the switch it found). Deletes the playing entry,
pops the queued filename if any and restarts it via `play_sound`; `ok`
models backend acceptance of that restart. -/
def on_finished (st : AppState) (s : ℕ) (ok : Bool) : AppState :=
  match st.current_playing s with
  | none => st
  | some _ =>
    match st.queued_sounds s with
    | none => { st with current_playing := updateMap st.current_playing s none }
    | some filename =>
      match play_sound st.volume ok with
      | some h =>
          let restarted : Entry := { filename := filename, handle := h }
          { st with
            current_playing := updateMap st.current_playing s (some restarted)
            queued_sounds := updateMap st.queued_sounds s none }
      | none =>
          { st with
            current_playing := updateMap st.current_playing s none
            queued_sounds := updateMap st.queued_sounds s none }

/-- The expression-pedal branch of `process_midi_message` (source lines
142-144): sets `use_midi_volume = True` and calls
`set_volume(msg.value / 127.0)`; the division of the nonnegative integer
`value` by 127 is the rational `mkRat value 127`. -/
def process_cc7 (st : AppState) (value : ℕ) : AppState :=
  set_volume { st with use_midi_volume := true } (mkRat value 127)

/-- `MainWindow.slider_volume_changed(value)` (source lines 299-303):
calls `set_volume(value / 100.0)` only when `use_midi_volume` is false;
`value / 100.0` is the rational `mkRat value 100`. -/
def slider_volume_changed (st : AppState) (value : ℕ) : AppState :=
  if st.use_midi_volume then st else set_volume st (mkRat value 100)

/-- Python `str.isdigit()` restricted to the decimal digits a key event
can carry. -/
def str_isdigit (s : String) : Bool :=
  !s.toList.isEmpty && s.toList.all Char.isDigit

/-- Python `int(s)` on a digit string. -/
def str_toNat (s : String) : ℕ :=
  s.toList.foldl (fun n c => 10 * n + (c.toNat - 48)) 0

/-- Kind of a pygame key event. -/
inductive KeyEvType where
  | keydown
  | keyup
  | other
deriving DecidableEq

/-- A pygame key event as `process_keyboard_input` reads it: its type
and its `unicode` string. -/
structure KeyEvent where
  type : KeyEvType
  unicode : String

/-- `process_keyboard_input(key_event)` (source lines 148-159): on
KEYDOWN of a digit key with `1 <= int(unicode) <= 10` it calls
`process_input(n, 127)`, on KEYUP likewise with value 0; anything else
is ignored. The folder/pick/backend environment is passed through to
`process_input`. -/
def process_keyboard_input (st : AppState) (ev : KeyEvent)
    (listing : Option (List String)) (pick : String) (ok : Bool) : AppState :=
  match ev.type with
  | KeyEvType.keydown =>
      if str_isdigit ev.unicode then
        if 1 ≤ str_toNat ev.unicode ∧ str_toNat ev.unicode ≤ 10 then
          process_input st (str_toNat ev.unicode) 127 listing pick ok
        else st
      else st
  | KeyEvType.keyup =>
      if str_isdigit ev.unicode then
        if 1 ≤ str_toNat ev.unicode ∧ str_toNat ev.unicode ≤ 10 then
          process_input st (str_toNat ev.unicode) 0 listing pick ok
        else st
      else st
  | KeyEvType.other => st

/-- The state at program start: both dicts empty,
`volume = DEFAULT_VOLUME = 1.0`, `use_midi_volume = True`
(source lines 20-26). -/
def initState : AppState :=
  { current_playing := fun _ => none
    queued_sounds := fun _ => none
    volume := 1
    use_midi_volume := true }

/-- One step of the engine: a press/release event through
`process_input`, a finished notification through `on_finished`, or a
volume write through `set_volume`. -/
inductive Step : AppState → AppState → Prop where
  | input (st : AppState) (n v : ℕ) (listing : Option (List String))
      (pick : String) (ok : Bool) :
      Step st (process_input st n v listing pick ok)
  | finished (st : AppState) (s : ℕ) (ok : Bool) :
      Step st (on_finished st s ok)
  | volume (st : AppState) (val : ℚ) :
      Step st (set_volume st val)

/-- States reachable from the initial state by engine steps. -/
inductive Reachable : AppState → Prop where
  | init : Reachable initState
  | step {st st' : AppState} : Reachable st → Step st st' → Reachable st'

/-- Invariant I2 of the spec: a queued filename for a switch exists only
while a playing entry for that switch exists. -/
def QueueInv (st : AppState) : Prop :=
  ∀ s, (st.queued_sounds s).isSome → (st.current_playing s).isSome

/-! Branch equations of the two transition functions, used throughout. -/


lemma process_input_absent (st : AppState) (n v : ℕ) (pick : String) (ok : Bool) :
    process_input st n v none pick ok = st := rfl

lemma process_input_empty (st : AppState) (n v : ℕ) (ls : List String) (pick : String) (ok : Bool)
    (hf : ls.filter is_audio = []) :
    process_input st n v (some ls) pick ok = st := by
  simp [process_input, hf]

lemma process_input_queue (st : AppState) (n v : ℕ) (ls : List String) (pick : String) (ok : Bool)
    (e : Entry) (hf : ls.filter is_audio ≠ []) (hv : 0 < v) (hp : st.current_playing n = some e) :
    process_input st n v (some ls) pick ok =
      { st with queued_sounds := updateMap st.queued_sounds n (some pick) } := by
  simp [process_input, hf, hv, hp]

lemma process_input_start (st : AppState) (n v : ℕ) (ls : List String) (pick : String)
    (hf : ls.filter is_audio ≠ []) (hv : 0 < v) (hp : st.current_playing n = none) :
    process_input st n v (some ls) pick true =
      { st with current_playing := (updateMap st.current_playing n
          (some { filename := pick, handle := { gain := st.volume, fade := none } })) } := by
  simp [process_input, hf, hv, hp, play_sound]

lemma process_input_start_fail (st : AppState) (n v : ℕ) (ls : List String) (pick : String)
    (hf : ls.filter is_audio ≠ []) (hv : 0 < v) (hp : st.current_playing n = none) :
    process_input st n v (some ls) pick false = st := by
  simp [process_input, hf, hv, hp, play_sound]

lemma process_input_release (st : AppState) (n : ℕ) (ls : List String) (pick : String) (ok : Bool)
    (e : Entry) (hf : ls.filter is_audio ≠ []) (hp : st.current_playing n = some e) :
    process_input st n 0 (some ls) pick ok =
      { st with current_playing := (updateMap st.current_playing n
          (some { e with handle := { e.handle with fade := some 500 } })) } := by
  simp [process_input, hf, hp]

lemma process_input_release_idle (st : AppState) (n : ℕ) (ls : List String) (pick : String) (ok : Bool)
    (hf : ls.filter is_audio ≠ []) (hp : st.current_playing n = none) :
    process_input st n 0 (some ls) pick ok = st := by
  simp [process_input, hf, hp]

lemma on_finished_idle (st : AppState) (s : ℕ) (ok : Bool)
    (hp : st.current_playing s = none) :
    on_finished st s ok = st := by
  simp [on_finished, hp]

lemma on_finished_noqueue (st : AppState) (s : ℕ) (ok : Bool) (e : Entry)
    (hp : st.current_playing s = some e) (hq : st.queued_sounds s = none) :
    on_finished st s ok = { st with current_playing := updateMap st.current_playing s none } := by
  simp [on_finished, hp, hq]

lemma on_finished_drain (st : AppState) (s : ℕ) (e : Entry) (f : String)
    (hp : st.current_playing s = some e) (hq : st.queued_sounds s = some f) :
    on_finished st s true =
      { st with
        current_playing := (updateMap st.current_playing s
          (some { filename := f, handle := { gain := st.volume, fade := none } }))
        queued_sounds := updateMap st.queued_sounds s none } := by
  simp [on_finished, hp, hq, play_sound]

lemma on_finished_drain_fail (st : AppState) (s : ℕ) (e : Entry) (f : String)
    (hp : st.current_playing s = some e) (hq : st.queued_sounds s = some f) :
    on_finished st s false =
      { st with
        current_playing := updateMap st.current_playing s none
        queued_sounds := updateMap st.queued_sounds s none } := by
  simp [on_finished, hp, hq, play_sound]

/-! Preservation of invariant I2 by each step, and the reachability
induction. -/

lemma queueInv_init : QueueInv initState := by
  intro t ht
  simp [initState] at ht

lemma queueInv_process_input (st : AppState) (n v : ℕ) (listing : Option (List String))
    (pick : String) (ok : Bool) (h : QueueInv st) :
    QueueInv (process_input st n v listing pick ok) := by
  cases listing with
  | none => rw [process_input_absent]; exact h
  | some ls =>
    by_cases hf : ls.filter is_audio = []
    · rw [process_input_empty st n v ls pick ok hf]; exact h
    · by_cases hv : 0 < v
      · cases hp : st.current_playing n with
        | some e =>
          rw [process_input_queue st n v ls pick ok e hf hv hp]
          intro t ht
          by_cases htn : t = n
          · subst htn; simp [hp]
          · exact h t (by simpa [updateMap, htn] using ht)
        | none =>
          cases ok with
          | true =>
            rw [process_input_start st n v ls pick hf hv hp]
            intro t ht
            by_cases htn : t = n
            · subst htn; simp [updateMap]
            · simp only [updateMap, if_neg htn]
              exact h t ht
          | false =>
            rw [process_input_start_fail st n v ls pick hf hv hp]; exact h
      · have hv0 : v = 0 := Nat.eq_zero_of_not_pos hv
        subst hv0
        cases hp : st.current_playing n with
        | some e =>
          rw [process_input_release st n ls pick ok e hf hp]
          intro t ht
          by_cases htn : t = n
          · subst htn; simp [updateMap]
          · simp only [updateMap, if_neg htn]
            exact h t ht
        | none => rw [process_input_release_idle st n ls pick ok hf hp]; exact h

lemma queueInv_on_finished (st : AppState) (s : ℕ) (ok : Bool) (h : QueueInv st) :
    QueueInv (on_finished st s ok) := by
  cases hp : st.current_playing s with
  | none => rw [on_finished_idle st s ok hp]; exact h
  | some e =>
    cases hq : st.queued_sounds s with
    | none =>
      rw [on_finished_noqueue st s ok e hp hq]
      intro t ht
      by_cases hts : t = s
      · subst hts; rw [hq] at ht; simp at ht
      · simp only [updateMap, if_neg hts]
        exact h t ht
    | some f =>
      cases ok with
      | true =>
        rw [on_finished_drain st s e f hp hq]
        intro t ht
        by_cases hts : t = s
        · subst hts; simp [updateMap]
        · simp only [updateMap, if_neg hts] at ht ⊢
          exact h t ht
      | false =>
        rw [on_finished_drain_fail st s e f hp hq]
        intro t ht
        by_cases hts : t = s
        · subst hts; simp [updateMap] at ht
        · simp only [updateMap, if_neg hts] at ht ⊢
          exact h t ht

lemma queueInv_set_volume (st : AppState) (val : ℚ) (h : QueueInv st) :
    QueueInv (set_volume st val) := by
  intro t ht
  simp only [set_volume] at ht ⊢
  cases hc : st.current_playing t with
  | none => exact absurd (h t ht) (by simp [hc])
  | some e => simp [hc]

lemma queueInv_step {st st1 : AppState} (h : QueueInv st) (hs : Step st st1) : QueueInv st1 := by
  cases hs with
  | input n v listing pick ok => exact queueInv_process_input st n v listing pick ok h
  | finished s ok => exact queueInv_on_finished st s ok h
  | volume val => exact queueInv_set_volume st val h

/-- The helper behind the missing-asset no-ops: with no candidate clips
(absent folder, or a listing with no recognized audio file) the input
handler returns before touching any state, whatever the value. -/
lemma process_input_no_candidates (st : AppState) (n v : ℕ) (listing : Option (List String))
    (pick : String) (ok : Bool) (h : candidates listing = []) :
    process_input st n v listing pick ok = st := by
  cases listing with
  | none => rfl
  | some ls =>
    have hf : ls.filter is_audio = [] := by simpa [candidates] using h
    exact process_input_empty st n v ls pick ok hf

/-! Concrete states used by the witnesses. -/

/-- A state in which switch 1 is playing clip a.wav mid-fade with clip
b.wav queued. -/
def stW : AppState :=
  { current_playing := updateMap (fun _ => none) 1 (some { filename := "a.wav", handle := { gain := 1, fade := some 500 } })
    queued_sounds := updateMap (fun _ => none) 1 (some "b.wav")
    volume := 1
    use_midi_volume := true }

/-- First step from the initial state: press switch 1, starting a.wav. -/
def st1W : AppState := process_input initState 1 127 (some ["a.wav", "b.wav"]) "a.wav" true

/-- Second step: press switch 1 again, queueing b.wav. -/
def st2W : AppState := process_input st1W 1 127 (some ["a.wav", "b.wav"]) "b.wav" true

/-! The claims. -/

/-- Claim C1: for every switch with a playing entry, processing the finished
notification (with the backend accepting the restart) removes the
playing entry; a queued filename, if present, is popped and started
immediately, leaving the switch playing the queued clip with no queue
entry; with no queued filename the switch ends idle. -/
theorem finished_drains_queue (st : AppState) (s : ℕ) (e : Entry)
    (h : st.current_playing s = some e) :
    (on_finished st s true).queued_sounds s = none
    ∧ (∀ f, st.queued_sounds s = some f →
        (on_finished st s true).current_playing s =
          some { filename := f, handle := { gain := st.volume, fade := none } })
    ∧ (st.queued_sounds s = none → (on_finished st s true).current_playing s = none) := by
  cases hq : st.queued_sounds s with
  | none =>
    rw [on_finished_noqueue st s true e h hq]
    refine ⟨hq, ?_, ?_⟩
    · intro f hf
      cases hf
    · intro _
      simp [updateMap]
  | some f0 =>
    rw [on_finished_drain st s e f0 h hq]
    refine ⟨by simp [updateMap], ?_, ?_⟩
    · intro f hf
      cases hf
      simp [updateMap]
    · intro hnone
      cases hnone

/-- Witness for C1 at a concrete state: switch 1 playing a.wav with
b.wav queued; after the finished notification b.wav is playing and the
queue is empty. -/
theorem finished_drains_queue_witness :
    stW.current_playing 1 = some { filename := "a.wav", handle := { gain := 1, fade := some 500 } }
    ∧ (on_finished stW 1 true).queued_sounds 1 = none
    ∧ (on_finished stW 1 true).current_playing 1 =
        some { filename := "b.wav", handle := { gain := 1, fade := none } } := by
  refine ⟨by decide, (finished_drains_queue stW 1
    { filename := "a.wav", handle := { gain := 1, fade := some 500 } } (by decide)).1, ?_⟩
  exact (finished_drains_queue stW 1 { filename := "a.wav", handle := { gain := 1, fade := some 500 } }
    (by decide)).2.1 "b.wav" (by decide)

/-- Claim C2: in every state reachable by press/release/finished/volume steps
from the initial state, a queued filename for a switch exists only while
a playing entry for that switch exists (invariant I2). -/
theorem queued_entry_requires_playing {st : AppState} (h : Reachable st) : QueueInv st := by
  induction h with
  | init => exact queueInv_init
  | step _ hs ih => exact queueInv_step ih hs

/-- Witness for C2 at a concrete reachable state: two presses of switch
1 from the initial state yield a state with a queued clip, and the
invariant instance at switch 1 holds there. -/
theorem queued_entry_requires_playing_witness :
    Reachable st2W ∧ ((st2W.queued_sounds 1).isSome → (st2W.current_playing 1).isSome) := by
  have h1 : Reachable st1W :=
    Reachable.step Reachable.init (Step.input initState 1 127 (some ["a.wav", "b.wav"]) "a.wav" true)
  have h2 : Reachable st2W :=
    Reachable.step h1 (Step.input st1W 1 127 (some ["a.wav", "b.wav"]) "b.wav" true)
  exact ⟨h2, fun hq => queued_entry_requires_playing h2 1 hq⟩

/-- Claim C3: a press for a switch that already has a playing entry does not
start playback (the playing table is untouched) and stores the picked
clip as the single queue entry for that switch, overwriting whatever was
queued before; queue entries of other switches are untouched. -/
theorem press_while_playing_queues (st : AppState) (n v : ℕ) (ls : List String)
    (pick : String) (ok : Bool) (e : Entry)
    (h : st.current_playing n = some e) (hv : 0 < v)
    (hpick : pick ∈ ls.filter is_audio) :
    (process_input st n v (some ls) pick ok).queued_sounds n = some pick
    ∧ (process_input st n v (some ls) pick ok).current_playing = st.current_playing
    ∧ ∀ t, t ≠ n → (process_input st n v (some ls) pick ok).queued_sounds t = st.queued_sounds t := by
  have hf : ls.filter is_audio ≠ [] := List.ne_nil_of_mem hpick
  rw [process_input_queue st n v ls pick ok e hf hv h]
  exact ⟨by simp [updateMap], rfl, fun t ht => by simp [updateMap, ht]⟩

/-- Witness for C3: pressing switch 1 of `stW` (already playing, b.wav
queued) with pick c.wav overwrites the queue entry with c.wav. -/
theorem press_while_playing_queues_witness :
    stW.current_playing 1 = some { filename := "a.wav", handle := { gain := 1, fade := some 500 } }
    ∧ 0 < 127
    ∧ "c.wav" ∈ (["c.wav"].filter is_audio)
    ∧ (process_input stW 1 127 (some ["c.wav"]) "c.wav" true).queued_sounds 1 = some "c.wav" := by
  refine ⟨by decide, by decide, by decide, ?_⟩
  exact (press_while_playing_queues stW 1 127 ["c.wav"] "c.wav" true
    { filename := "a.wav", handle := { gain := 1, fade := some 500 } } (by decide) (by decide)
    (by decide)).1

/-- Claim C4: a release for a switch with a playing entry marks a 500 ms fade
on that entry's handle, keeps the entry in the table (same filename and
gain), leaves the whole queue map unchanged, and touches no other
switch's playing entry. -/
theorem release_fades_preserves_entries (st : AppState) (n : ℕ) (ls : List String)
    (pick : String) (ok : Bool) (e : Entry)
    (h : st.current_playing n = some e) (hf : ls.filter is_audio ≠ []) :
    (process_input st n 0 (some ls) pick ok).current_playing n =
      some { e with handle := { e.handle with fade := some 500 } }
    ∧ (process_input st n 0 (some ls) pick ok).queued_sounds = st.queued_sounds
    ∧ ∀ t, t ≠ n → (process_input st n 0 (some ls) pick ok).current_playing t = st.current_playing t := by
  rw [process_input_release st n ls pick ok e hf h]
  exact ⟨by simp [updateMap], rfl, fun t ht => by simp [updateMap, ht]⟩

/-- Witness for C4: releasing switch 1 of `st2W` (playing a.wav, b.wav
queued) marks the fade and keeps b.wav queued. -/
theorem release_fades_preserves_entries_witness :
    st2W.current_playing 1 = some { filename := "a.wav", handle := { gain := 1, fade := none } }
    ∧ (["a.wav", "b.wav"].filter is_audio ≠ [])
    ∧ (process_input st2W 1 0 (some ["a.wav", "b.wav"]) "a.wav" true).current_playing 1 =
        some { filename := "a.wav", handle := { gain := 1, fade := some 500 } }
    ∧ (process_input st2W 1 0 (some ["a.wav", "b.wav"]) "a.wav" true).queued_sounds 1 = some "b.wav" := by
  refine ⟨by decide, by decide, ?_, ?_⟩
  · exact (release_fades_preserves_entries st2W 1 ["a.wav", "b.wav"] "a.wav" true
      { filename := "a.wav", handle := { gain := 1, fade := none } } (by decide) (by decide)).1
  · have hq := (release_fades_preserves_entries st2W 1 ["a.wav", "b.wav"] "a.wav" true
      { filename := "a.wav", handle := { gain := 1, fade := none } } (by decide) (by decide)).2.1
    rw [hq]
    decide

/-- Claim C5: when the backend rejects the start request for a press on an
idle switch, the whole state is returned unchanged: no playing entry is
recorded and nothing else moves. -/
theorem backend_failure_leaves_state (st : AppState) (n v : ℕ) (ls : List String) (pick : String)
    (h : st.current_playing n = none) (hv : 0 < v) (hf : ls.filter is_audio ≠ []) :
    process_input st n v (some ls) pick false = st :=
  process_input_start_fail st n v ls pick hf hv h

/-- Witness for C5: a rejected start of switch 1 from the initial state
leaves the initial state intact. -/
theorem backend_failure_leaves_state_witness :
    initState.current_playing 1 = none
    ∧ 0 < 127
    ∧ (["a.wav"].filter is_audio ≠ [])
    ∧ process_input initState 1 127 (some ["a.wav"]) "a.wav" false = initState :=
  ⟨rfl, by decide, by decide,
    backend_failure_leaves_state initState 1 127 ["a.wav"] "a.wav" rfl (by decide) (by decide)⟩

/-- Claim C6 counterexample: from the initial state, the pedal write CC#7
value 0 followed by the slider write 100 does not end with gain 1.0 in
local mode; the slider write is dropped because `use_midi_volume` is
still set. -/
theorem local_after_external_counterexample :
    ¬ ((slider_volume_changed (process_cc7 initState 0) 100).volume = 1
       ∧ (slider_volume_changed (process_cc7 initState 0) 100).use_midi_volume = false) := by
  intro hcl
  have hm : (slider_volume_changed (process_cc7 initState 0) 100).use_midi_volume = true := rfl
  rw [hm] at hcl
  cases hcl.2

/-- Claim C6 as amended: after the pedal write CC#7 value 0, an immediately
following slider write of 100 is ignored — the gain stays 0 and the mode
stays external (`use_midi_volume = true`); the earlier external write
wins over the later local one. -/
theorem local_after_external_ignored (st : AppState) :
    (slider_volume_changed (process_cc7 st 0) 100).volume = 0
    ∧ (slider_volume_changed (process_cc7 st 0) 100).use_midi_volume = true :=
  ⟨rfl, rfl⟩

/-- Claim C7: evaluating the keyboard handler at the failing input — a key
event for digit 0 — shows it leaves the state unchanged in both the
key-down and the key-up direction: `int("0") = 0` fails the
`1 <= switch_number <= 10` guard, so the tenth switch is unreachable
from the keyboard. -/
theorem keyboard_digit_zero_noop (st : AppState) (listing : Option (List String))
    (pick : String) (ok : Bool) :
    process_keyboard_input st { type := KeyEvType.keydown, unicode := "0" } listing pick ok = st
    ∧ process_keyboard_input st { type := KeyEvType.keyup, unicode := "0" } listing pick ok = st :=
  ⟨rfl, rfl⟩

/-- Claim C8: after `set_volume` with 0.4 (= 2/5), the stored volume is 0.4,
every live entry's handle gain is 0.4, and a switch that starts playing
afterwards starts with gain 0.4. -/
theorem gain_propagation (st : AppState) :
    (set_volume st (mkRat 2 5)).volume = mkRat 2 5
    ∧ (∀ s e, (set_volume st (mkRat 2 5)).current_playing s = some e →
        e.handle.gain = mkRat 2 5)
    ∧ (∀ s v ls pick, (set_volume st (mkRat 2 5)).current_playing s = none → 0 < v →
        ls.filter is_audio ≠ [] →
        (process_input (set_volume st (mkRat 2 5)) s v (some ls) pick true).current_playing s =
          some { filename := pick, handle := { gain := mkRat 2 5, fade := none } }) := by
  have hval : pymax 0 (pymin 1 (mkRat 2 5)) = mkRat 2 5 := by decide
  refine ⟨hval, ?_, ?_⟩
  · intro s e he
    simp only [set_volume, Option.map_eq_some'] at he
    obtain ⟨a, ha, rfl⟩ := he
    exact hval
  · intro s v ls pick hnone hv hf
    rw [process_input_start (set_volume st (mkRat 2 5)) s v ls pick hf hv hnone]
    simp [updateMap, set_volume, hval]

/-- Witness for C8: setting gain 2/5 on `stW` then starting switch 2
yields an entry with gain 2/5. -/
theorem gain_propagation_witness :
    (set_volume stW (mkRat 2 5)).current_playing 2 = none
    ∧ 0 < 127
    ∧ (["c.wav"].filter is_audio ≠ [])
    ∧ (process_input (set_volume stW (mkRat 2 5)) 2 127 (some ["c.wav"]) "c.wav" true).current_playing 2 =
        some { filename := "c.wav", handle := { gain := mkRat 2 5, fade := none } } := by
  refine ⟨rfl, by decide, by decide, ?_⟩
  exact (gain_propagation stW).2.2 2 127 ["c.wav"] "c.wav" rfl (by decide) (by decide)

/-- Claim C9: a press (or any input) for a switch whose folder is absent or
holds no recognized audio file returns the very same state, in every
state: a silent no-op. -/
theorem missing_assets_noop (st : AppState) (n v : ℕ) (listing : Option (List String))
    (pick : String) (ok : Bool) (h : candidates listing = []) :
    process_input st n v listing pick ok = st :=
  process_input_no_candidates st n v listing pick ok h

/-- Witness for C9: pressing switch 5 with its folder absent leaves the
initial state intact. -/
theorem missing_assets_noop_witness :
    candidates none = []
    ∧ process_input initState 5 127 none "x" true = initState :=
  ⟨rfl, missing_assets_noop initState 5 127 none "x" true rfl⟩

/-- Claim C10: a release for a switch that has a playing entry is dropped
before any state access when the folder has no candidates: no fade is
recorded and the playing entry is exactly as before. -/
theorem release_dropped_without_candidates (st : AppState) (n : ℕ)
    (listing : Option (List String)) (pick : String) (ok : Bool) (e : Entry)
    (h : st.current_playing n = some e) (hc : candidates listing = []) :
    process_input st n 0 listing pick ok = st
    ∧ (process_input st n 0 listing pick ok).current_playing n = some e := by
  have hnoop := process_input_no_candidates st n 0 listing pick ok hc
  exact ⟨hnoop, by rw [hnoop]; exact h⟩

/-- Witness for C10: releasing switch 1 of `stW` while the folder lists
only readme.txt keeps the entry playing un-faded. -/
theorem release_dropped_without_candidates_witness :
    stW.current_playing 1 = some { filename := "a.wav", handle := { gain := 1, fade := some 500 } }
    ∧ candidates (some ["readme.txt"]) = []
    ∧ (process_input stW 1 0 (some ["readme.txt"]) "x" true).current_playing 1 =
        some { filename := "a.wav", handle := { gain := 1, fade := some 500 } } := by
  refine ⟨by decide, by decide, ?_⟩
  exact (release_dropped_without_candidates stW 1 (some ["readme.txt"]) "x" true
    { filename := "a.wav", handle := { gain := 1, fade := some 500 } } (by decide) (by decide)).2


end FCB1010
